import Mathlib

/-
Verification of the results-reporting pipeline of the ast-cli repository
(internal/commands/result.go): summary building, sentinel handling, format
encoders, SCA enrichment, and the async report job pollers.

Machine integers are modelled as Int/Nat (no overflow is relevant at the
scales involved: issue counters and line numbers), the SCA risk score as a
rational number, and Go panics (out-of-range indexing) as Option/none.
Helpers that live in other packages of the repository (internal/params,
internal/commands/util, internal/wrappers, printer) are modelled from the
spec and marked as such in their doc comments; all other definitions are
direct translations of internal/commands/result.go.
-/

namespace AstCli

/-! ## Constants (result.go `const` block) -/

def notAvailableNumber : Int := -1

def mediumLabel : String := "medium"

def highLabel : String := "high"

def lowLabel : String := "low"

def infoLabel : String := "info"

def infoCx : String := "INFO"

def lowCx : String := "LOW"

def mediumCx : String := "MEDIUM"

def highCx : String := "HIGH"

def infoLowSarif : String := "note"

def mediumSarif : String := "warning"

def highSarif : String := "error"

def directDependencyType : String := "Direct Dependency"

def indirectDependencyType : String := "Transitive Dependency"

def startedStatus : String := "started"

def requestedStatus : String := "requested"

def completedStatus : String := "completed"

def exportingStatus : String := "Exporting"

def pendingStatus : String := "Pending"

def sarifNodeFileLength : Nat := 2

/-- Modelled from the spec: the engine-type identifier of the static-analysis
engine (`commonParams.SastType`, from internal/params which is not under
src/). The exact string is immaterial; the three engine identifiers are
distinct. -/
def sastType : String := "sast"

/-- Modelled from the spec: the engine-type identifier of the dependency
engine (`commonParams.ScaType`). -/
def scaType : String := "sca"

/-- Modelled from the spec: the engine-type identifier of the
infrastructure-as-code engine (`commonParams.KicsType`). -/
def kicsType : String := "kics"

/-- Modelled from the spec: the failed scan status (`wrappers.ScanFailed`,
from internal/wrappers which is not under src/). -/
def scanFailed : String := "Failed"

/-- Modelled from the spec: the canceled scan status
(`wrappers.ScanCanceled`). -/
def scanCanceled : String := "Canceled"

/-- Modelled from the spec: `wrappers.VendorName`. -/
def vendorName : String := "Checkmarx"

/-- ASCII lower-casing of a string (Go `strings.ToLower`, exact on the
ASCII strings involved), implemented over the character list so that it
evaluates by kernel reduction. -/
def toLowerStr (s : String) : String := String.mk (s.data.map Char.toLower)

/-- Go `strings.TrimSpace` (ASCII whitespace, exact on the strings
involved). -/
def isSpaceChar (c : Char) : Bool := c == ' ' || c == '\t' || c == '\n' || c == '\r'

/-- See `isSpaceChar`. -/
def trimSpace (s : String) : String :=
  String.mk (((s.data.dropWhile isSpaceChar).reverse.dropWhile isSpaceChar).reverse)

/-- Go `strings.ReplaceAll` for a single-character pattern and a
single-character replacement. -/
def replaceAllChar (pattern replacement : Char) (s : String) : String :=
  String.mk (s.data.map (fun c => if c == pattern then replacement else c))

/-- Go `strings.ReplaceAll` for a single-character pattern and the empty
replacement. -/
def removeAllChar (pattern : Char) (s : String) : String :=
  String.mk (s.data.filter (fun c => !(c == pattern)))

/-- Go `strings.Replace(s, pattern, "", 1)` for a single-character pattern:
remove the first occurrence only. -/
def removeFirstCharAux (pattern : Char) : List Char → List Char
  | [] => []
  | c :: rest => if c == pattern then rest else c :: removeFirstCharAux pattern rest

/-- See `removeFirstCharAux`. -/
def removeFirstChar (pattern : Char) (s : String) : String :=
  String.mk (removeFirstCharAux pattern s.data)

/-- Go slicing `s[1:]` on the strings involved (single-byte characters). -/
def dropFirstChar (s : String) : String := String.mk (s.data.drop 1)

/-- Modelled from the spec: Go `strings.EqualFold`, case-insensitive string
equality (approximated by ASCII lower-casing, which agrees with Go on the
ASCII status and state strings used here). -/
def equalFold (a b : String) : Bool := toLowerStr a == toLowerStr b

/-- Modelled from the spec: the `contains` helper used by the summary
builder (defined elsewhere in the commands package, not under src/) —
membership of a string in the enabled-engine list. -/
def contains (l : List String) (s : String) : Bool := l.contains s

/-- Modelled from the spec: the exploitability-state predicate
`isExploitable` (defined elsewhere in the commands package, not under
src/): a state is exploitable unless explicitly marked
non-exploitable/ignored. -/
def notExploitable : String := "NOT_EXPLOITABLE"

/-- Modelled from the spec: the ignored state string. -/
def ignoredState : String := "IGNORED"

/-- Modelled from the spec: see `notExploitable`. -/
def isExploitable (state : String) : Bool :=
  !(equalFold state notExploitable) && !(equalFold state ignoredState)

/-! ## Data model (internal/wrappers, shapes as used by result.go) -/

structure ScanResultNode where
  fileName : String
  line : Nat
  column : Nat
  length : Nat
deriving DecidableEq

structure DependencyPath where
  id : String
  locations : List String
  supportsQuickFix : Bool
deriving DecidableEq

structure ScaPackageCollection where
  id : String
  locations : List String
  dependencyPathArray : List (List DependencyPath)
  supportsQuickFix : Bool
  fixLink : String
  typeOfDependency : String
  isDirectDependency : Bool
deriving DecidableEq

structure ScaTypeCollection where
  id : String
  type : String
  isIgnored : Bool
deriving DecidableEq

structure VulnerabilityDetails where
  cvssScore : ℚ
  cveName : String
deriving DecidableEq

structure ScanResultData where
  queryID : Option String
  queryName : String
  packageIdentifier : String
  nodes : List ScanResultNode
  filename : String
  line : Nat
  value : String
  expectedValue : String
  scaPackageCollection : Option ScaPackageCollection
deriving DecidableEq

structure ScanResult where
  id : String
  type : String
  state : String
  severity : String
  description : String
  scaType : String
  vulnerabilityDetails : VulnerabilityDetails
  scanResultData : ScanResultData
deriving DecidableEq

/-- The aggregate Summary (`wrappers.ResultSummary`), restricted to the
fields read or written by the summary-building and report-creation code
under verification (presentation-only fields such as scan/project ids,
tags and the base URI are omitted). Counters are `Int` because they carry
the sentinel −1. -/
structure ResultSummary where
  status : String
  riskStyle : String
  riskMsg : String
  highIssues : Int
  mediumIssues : Int
  lowIssues : Int
  infoIssues : Int
  sastIssues : Int
  kicsIssues : Int
  scaIssues : Int
  totalIssues : Int
  enginesEnabled : List String
deriving DecidableEq

structure StatusDetail where
  name : String
  status : String
deriving DecidableEq

/-- The scan metadata consumed by `convertScanToResultsSummary`
(`wrappers.ScanResponseModel`), restricted to the fields it reads. -/
structure ScanInfo where
  status : String
  statusDetails : List StatusDetail
  engines : List String
deriving DecidableEq

/-! ## Summary builder (result.go) -/

/-- One step of the status-details loop of `convertScanToResultsSummary`
(result.go lines 353-365): a failed or canceled engine status forces the
matching counter to the sentinel. The accumulator is
(sastIssues, scaIssues, kicsIssues). -/
def applyStatusDetail (acc : Int × Int × Int) (d : StatusDetail) : Int × Int × Int :=
  if d.status == scanFailed || d.status == scanCanceled then
    if d.name == sastType then (notAvailableNumber, acc.2.1, acc.2.2)
    else if d.name == scaType then (acc.1, notAvailableNumber, acc.2.2)
    else if d.name == kicsType then (acc.1, acc.2.1, notAvailableNumber)
    else acc
  else acc

/-- `convertScanToResultsSummary` (result.go lines 345-398), restricted to
the summary fields under verification (URL/identifier plumbing omitted). -/
def convertScanToResultsSummary (scanInfo : ScanInfo) : ResultSummary :=
  let counters := scanInfo.statusDetails.foldl applyStatusDetail (0, 0, 0)
  { status := scanInfo.status
    riskStyle := ""
    riskMsg := ""
    highIssues := 0
    mediumIssues := 0
    lowIssues := 0
    infoIssues := 0
    sastIssues := counters.1
    kicsIssues := counters.2.2
    scaIssues := counters.2.1
    totalIssues := 0
    enginesEnabled := scanInfo.engines }

/-- `countResult` (result.go lines 741-765). -/
def countResult (summary : ResultSummary) (result : ScanResult) : ResultSummary :=
  let engineType := trimSpace result.type
  if contains summary.enginesEnabled engineType && isExploitable result.state then
    let summary :=
      if engineType == sastType then
        { summary with sastIssues := summary.sastIssues + 1, totalIssues := summary.totalIssues + 1 }
      else if engineType == scaType then
        { summary with scaIssues := summary.scaIssues + 1, totalIssues := summary.totalIssues + 1 }
      else if engineType == kicsType then
        { summary with kicsIssues := summary.kicsIssues + 1, totalIssues := summary.totalIssues + 1 }
      else summary
    let severity := toLowerStr result.severity
    if severity == highLabel then { summary with highIssues := summary.highIssues + 1 }
    else if severity == lowLabel then { summary with lowIssues := summary.lowIssues + 1 }
    else if severity == mediumLabel then { summary with mediumIssues := summary.mediumIssues + 1 }
    else if severity == infoLabel then { summary with infoIssues := summary.infoIssues + 1 }
    else summary
  else summary

/-- `enhanceWithScanSummary` (result.go lines 449-454). -/
def enhanceWithScanSummary (summary : ResultSummary) (results : List ScanResult) : ResultSummary :=
  let summary := results.foldl countResult summary
  { summary with totalIssues := summary.sastIssues + summary.scaIssues + summary.kicsIssues }

/-- `setNotAvailableNumberIfZero` (result.go lines 428-432), instantiated at
the SAST counter as in `summaryReport`. -/
def setNotAvailableNumberIfZeroSast (summary : ResultSummary) : ResultSummary :=
  if summary.sastIssues == 0 && !(contains summary.enginesEnabled sastType) then
    { summary with sastIssues := notAvailableNumber }
  else summary

/-- `setNotAvailableNumberIfZero` instantiated at the SCA counter. -/
def setNotAvailableNumberIfZeroSca (summary : ResultSummary) : ResultSummary :=
  if summary.scaIssues == 0 && !(contains summary.enginesEnabled scaType) then
    { summary with scaIssues := notAvailableNumber }
  else summary

/-- `setNotAvailableNumberIfZero` instantiated at the KICS counter. -/
def setNotAvailableNumberIfZeroKics (summary : ResultSummary) : ResultSummary :=
  if summary.kicsIssues == 0 && !(contains summary.enginesEnabled kicsType) then
    { summary with kicsIssues := notAvailableNumber }
  else summary

/-- `setRiskMsgAndStyle` (result.go lines 434-447). -/
def setRiskMsgAndStyle (summary : ResultSummary) : ResultSummary :=
  if summary.highIssues > 0 then
    { summary with riskStyle := highLabel, riskMsg := "High Risk" }
  else if summary.mediumIssues > 0 then
    { summary with riskStyle := mediumLabel, riskMsg := "Medium Risk" }
  else if summary.lowIssues > 0 then
    { summary with riskStyle := lowLabel, riskMsg := "Low Risk" }
  else if summary.totalIssues == 0 then
    { summary with riskMsg := "No Risk" }
  else summary

/-- The counting-and-adjustment tail of `summaryReport` (result.go lines
418-423): `enhanceWithScanSummary`, the three sentinel adjustments, then the
risk label (the API-security and policy attachments do not touch any
counter and are omitted). -/
def summaryReport (summary : ResultSummary) (results : List ScanResult) : ResultSummary :=
  let summary := enhanceWithScanSummary summary results
  let summary := setNotAvailableNumberIfZeroSast summary
  let summary := setNotAvailableNumberIfZeroSca summary
  let summary := setNotAvailableNumberIfZeroKics summary
  setRiskMsgAndStyle summary

/-- `convertNotAvailableNumberToZero` (result.go lines 1660-1668). Note the
else-if chain: at most one of the three counters is coerced per call. -/
def convertNotAvailableNumberToZero (summary : ResultSummary) : ResultSummary :=
  if summary.kicsIssues == notAvailableNumber then { summary with kicsIssues := 0 }
  else if summary.sastIssues == notAvailableNumber then { summary with sastIssues := 0 }
  else if summary.scaIssues == notAvailableNumber then { summary with scaIssues := 0 }
  else summary

/-- `isScanPending` (result.go lines 812-817). -/
def isScanPending (scanStatus : String) : Bool :=
  !(equalFold scanStatus "Completed" || equalFold scanStatus "Partial"
    || equalFold scanStatus "Failed")

/-- `isValidScanStatus` (result.go lines 819-825), logging omitted. -/
def isValidScanStatus (status : String) : Bool := !(isScanPending status)

/-! ## Report dispatch (`createReport`, result.go lines 827-896) -/

/-- Modelled from the spec: the format names of the printer package (not
under src/). Exact strings are immaterial; they are pairwise distinct. -/
def formatSarif : String := "sarif"

/-- Modelled from the spec: see `formatSarif`. -/
def formatSonar : String := "sonar"

/-- Modelled from the spec: see `formatSarif`. -/
def formatJSON : String := "json"

/-- Modelled from the spec: see `formatSarif`. -/
def formatGL : String := "gl-sast"

/-- Modelled from the spec: see `formatSarif`. -/
def formatSummaryConsole : String := "summaryConsole"

/-- Modelled from the spec: see `formatSarif`. -/
def formatSummary : String := "summaryHTML"

/-- Modelled from the spec: see `formatSarif`. -/
def formatSummaryJSON : String := "summaryJSON"

/-- Modelled from the spec: see `formatSarif`. -/
def formatPDF : String := "pdf"

/-- Modelled from the spec: see `formatSarif`. -/
def formatSummaryMarkdown : String := "markdown"

/-- Modelled from the spec: see `formatSarif`. -/
def formatSbom : String := "sbom"

/-- The encoder/action `createReport` selects for a requested format. The
SBOM branch distinguishes its two precondition errors from reaching the
encoder. -/
inductive ReportAction where
  | sarifReport
  | sonarReport
  | jsonReport
  | glReport
  | consoleSummary
  | htmlSummary
  | jsonSummary
  | pdfReport
  | markdownSummary
  | sbomReport
  | sbomEngineMissingError
  | sbomEngineFailedError
  | badFormat
deriving DecidableEq

/-- `createReport` (result.go lines 827-896), as the pair of the action
taken and the state of the (shared, pointer-passed) Summary after the call.
File writing and the wrapper calls inside each branch are external effects;
what is verified here is which branch runs and how the branch mutates the
Summary handed to the remaining formats of the same invocation. -/
def createReport (format : String) (summary : ResultSummary) :
    ReportAction × ResultSummary :=
  if format == formatSarif && isValidScanStatus summary.status then
    (.sarifReport, summary)
  else if format == formatSonar && isValidScanStatus summary.status then
    (.sonarReport, summary)
  else if format == formatJSON && isValidScanStatus summary.status then
    (.jsonReport, summary)
  else if format == formatGL then
    (.glReport, summary)
  else if format == formatSummaryConsole then
    (.consoleSummary, summary)
  else if format == formatSummary then
    (.htmlSummary, convertNotAvailableNumberToZero summary)
  else if format == formatSummaryJSON then
    (.jsonSummary, convertNotAvailableNumberToZero summary)
  else if format == formatPDF && isValidScanStatus summary.status then
    (.pdfReport, summary)
  else if format == formatSummaryMarkdown then
    (.markdownSummary, convertNotAvailableNumberToZero summary)
  else if format == formatSbom && isValidScanStatus summary.status then
    let summary := convertNotAvailableNumberToZero summary
    if !(contains summary.enginesEnabled scaType) then
      (.sbomEngineMissingError, summary)
    else if summary.scaIssues == notAvailableNumber then
      (.sbomEngineFailedError, summary)
    else (.sbomReport, summary)
  else (.badFormat, summary)

/-! ## Async report job pollers (result.go lines 1094-1214) -/

/-- The shared polling loop shape of `exportPdfResults` and the SCA local
flow of `exportSbomResults`: while the current status is an in-progress
status, fetch the next status. `statuses` is the sequence of statuses the
remote service returns to successive polls; `none` models the Go loop
still polling when that sequence is exhausted. -/
def runPollLoop (inProgress : String → Bool) : String → List String → Option String
  | current, statuses =>
    if inProgress current then
      match statuses with
      | [] => none
      | s :: rest => runPollLoop inProgress s rest
    else some current

/-- Outcome of a report job: terminal success with the number of download
calls performed, terminal failure carrying the offending status string and
the number of download calls, or still polling when the stubbed status
sequence ran out. -/
inductive ReportJobOutcome where
  | completed (downloadCalls : Nat)
  | failed (status : String) (downloadCalls : Nat)
  | stillPolling
deriving DecidableEq

/-- The in-progress statuses of the PDF poller (result.go line 1198):
`started` and `requested`. -/
def pdfInProgress (s : String) : Bool := s == startedStatus || s == requestedStatus

/-- The polling state machine of `exportPdfResults` (result.go lines
1196-1213): seed status `started`; poll while started/requested; on exit,
any status other than `completed` fails with that status embedded and no
download, `completed` performs exactly one download. -/
def exportPdfResults (statuses : List String) : ReportJobOutcome :=
  match runPollLoop pdfInProgress startedStatus statuses with
  | none => .stillPolling
  | some final =>
    if final != completedStatus then .failed final 0
    else .completed 1

/-- The in-progress statuses of the SBOM local-flow poller (result.go line
1121): `Exporting` and `Pending`. -/
def sbomInProgress (s : String) : Bool := s == exportingStatus || s == pendingStatus

/-- The polling state machine of the `useSCALocalFlow` branch of
`exportSbomResults` (result.go lines 1111-1136): seed status `Exporting`;
poll while Exporting/Pending; on exit, a status not case-folding to
`completed` fails with that status embedded and no download, otherwise
exactly one download. -/
def exportSbomResults (statuses : List String) : ReportJobOutcome :=
  match runPollLoop sbomInProgress exportingStatus statuses with
  | none => .stillPolling
  | some final =>
    if !(equalFold final completedStatus) then .failed final 0
    else .completed 1

/-! ## SARIF encoder (result.go lines 1340-1658) -/

/-- The `securities` severity-score map (result.go lines 120-125); a missing
key yields the Go map zero value `""`. -/
def securities (severity : String) : String :=
  if severity == infoCx then "3.5"
  else if severity == lowCx then "6.5"
  else if severity == mediumCx then "8.5"
  else if severity == highCx then "9.5"
  else ""

/-- Go title-casing (`strings.Title` at result.go line 1501,
`cases.Title(language.English)` at lines 1296-1297): capitalize the first
letter of each space-separated word (approximation of the Unicode word
segmentation, exact on the ASCII identifier and severity strings
involved). The Boolean flag records whether a word start is pending. -/
def titleCaseAux : Bool → List Char → List Char
  | _, [] => []
  | atWordStart, c :: rest =>
    if c == ' ' then c :: titleCaseAux true rest
    else (if atWordStart then c.toUpper else c) :: titleCaseAux false rest

/-- See `titleCaseAux`. -/
def titleCase (s : String) : String :=
  String.mk (titleCaseAux true s.data)

/-- `findRuleID` (result.go lines 1498-1508): (ruleID, ruleName,
shortMessage). -/
def findRuleID (result : ScanResult) : String × String × String :=
  match result.scanResultData.queryID with
  | none =>
    (result.id ++ " (" ++ result.type ++ ")",
     titleCase (toLowerStr (removeAllChar (Char.ofNat 45) result.id)),
     result.scanResultData.packageIdentifier ++ " (" ++ result.id ++ ")")
  | some queryID =>
    (queryID ++ " (" ++ result.type ++ ")",
     replaceAllChar (Char.ofNat 95) (Char.ofNat 32) result.scanResultData.queryName,
     replaceAllChar (Char.ofNat 95) (Char.ofNat 32) result.scanResultData.queryName)

/-- `findDescriptionText` (result.go lines 1524-1533). -/
def findDescriptionText (result : ScanResult) : String :=
  if result.type == kicsType then
    result.description ++ " Value: " ++ result.scanResultData.value
      ++ " Excepted value: " ++ result.scanResultData.expectedValue
  else result.description

/-- `findHelpMarkdownText` (result.go lines 1535-1544). -/
def findHelpMarkdownText (result : ScanResult) : String :=
  if result.type == kicsType then
    result.description ++ " <br><br><strong>Value:</strong> "
      ++ result.scanResultData.value
      ++ " <br><strong>Excepted value:</strong> "
      ++ result.scanResultData.expectedValue
  else result.description

structure SarifProperties where
  id : String
  name : String
  description : String
  securitySeverity : String
  tags : List String
deriving DecidableEq

structure SarifHelp where
  text : String
  markdown : String
deriving DecidableEq

structure SarifDriverRule where
  id : String
  name : String
  fullDescriptionText : String
  help : SarifHelp
  helpURI : String
  properties : SarifProperties
deriving DecidableEq

/-- Modelled from the spec: `wrappers.SarifInformationURI`. -/
def sarifInformationURI : String := "https://checkmarx.com/"

/-- `findProperties` (result.go lines 1546-1554). -/
def findProperties (result : ScanResult) : SarifProperties :=
  { id := (findRuleID result).1
    name := (findRuleID result).2.1
    description := findDescriptionText result
    securitySeverity := securities result.severity
    tags := ["security", "checkmarx", result.type] }

/-- `findSarifLevel` (result.go lines 1556-1564); a missing key yields the
Go map zero value `""`. -/
def findSarifLevel (severity : String) : String :=
  if severity == infoCx then infoLowSarif
  else if severity == lowCx then infoLowSarif
  else if severity == mediumCx then mediumSarif
  else if severity == highCx then highSarif
  else ""

structure SarifRegion where
  startLine : Nat
  startColumn : Nat
  endColumn : Nat
deriving DecidableEq

structure SarifLocation where
  uri : String
  region : Option SarifRegion
deriving DecidableEq

structure SarifScanResult where
  ruleID : String
  level : String
  messageText : String
  locations : List SarifLocation
deriving DecidableEq

/-- `initSarifResult` (result.go lines 1566-1573). -/
def initSarifResult (result : ScanResult) : SarifScanResult :=
  { ruleID := (findRuleID result).1
    level := findSarifLevel result.severity
    messageText := (findRuleID result).2.2
    locations := [] }

/-- `parseSarifResultSast` (result.go lines 1632-1658): one scan result
whose locations are one entry per node with a file name of length ≥ 2,
skipping nodes with a non-positive line (`Line` is unsigned in Go, so
non-positive means zero). -/
def parseSarifResultSast (result : ScanResult) (scanResults : List SarifScanResult) :
    List SarifScanResult :=
  let scanResult := initSarifResult result
  let locations := result.scanResultData.nodes.foldl
    (fun locs node =>
      if sarifNodeFileLength ≤ node.fileName.length then
        if node.line ≤ 0 then locs
        else locs ++ [{ uri := dropFirstChar node.fileName
                        region := some { startLine := node.line
                                         startColumn := node.column
                                         endColumn := node.column + node.length } }]
      else locs) []
  scanResults ++ [{ scanResult with locations := locations }]

/-- `parseSarifResultKics` (result.go lines 1612-1630). -/
def parseSarifResultKics (result : ScanResult) (scanResults : List SarifScanResult) :
    List SarifScanResult :=
  let scanResult := initSarifResult result
  let location : SarifLocation :=
    { uri := removeFirstChar (Char.ofNat 47) result.scanResultData.filename
      region := some { startLine := result.scanResultData.line
                       startColumn := 1
                       endColumn := 2 } }
  scanResults ++ [{ scanResult with locations := [location] }]

/-- `parseSarifResultsSca` (result.go lines 1592-1610): one scan result per
package location. -/
def parseSarifResultsSca (result : ScanResult) (scanResults : List SarifScanResult) :
    List SarifScanResult :=
  match result.scanResultData.scaPackageCollection with
  | none => scanResults
  | some pkg =>
    scanResults ++ pkg.locations.map (fun location =>
      { initSarifResult result with
          locations := [{ uri := location
                          region := some { startLine := 1, startColumn := 1, endColumn := 2 } }] })

/-- `findResult` (result.go lines 1575-1590); the Go nil return for an empty
result list is modelled as the empty list, which is appended identically. -/
def findResult (result : ScanResult) : List SarifScanResult :=
  if 0 < result.scanResultData.nodes.length then parseSarifResultSast result []
  else if result.type == kicsType then parseSarifResultKics result []
  else if result.type == scaType then parseSarifResultsSca result []
  else []

/-- `findRule` (result.go lines 1482-1496): the Go `ruleIds` mutable map is
threaded as the list of rule identifiers already emitted; the rule is
returned only for an identifier not seen before. -/
def findRule (ruleIds : List String) (result : ScanResult) :
    List String × Option SarifDriverRule :=
  let sarifRule : SarifDriverRule :=
    { id := (findRuleID result).1
      name := (findRuleID result).2.1
      fullDescriptionText := findDescriptionText result
      help := { text := findDescriptionText result
                markdown := findHelpMarkdownText result }
      helpURI := sarifInformationURI
      properties := findProperties result }
  if !(ruleIds.contains sarifRule.id) then (sarifRule.id :: ruleIds, some sarifRule)
  else (ruleIds, none)

/-- The loop body of `parseResults` (result.go lines 1349-1364), with the
`ruleIds` map threaded explicitly. -/
def parseResultsAux : List String → List ScanResult → List SarifDriverRule × List SarifScanResult
  | _, [] => ([], [])
  | ruleIds, result :: rest =>
    let fr := findRule ruleIds result
    let recd := parseResultsAux fr.1 rest
    (match fr.2 with
     | some rule => rule :: recd.1
     | none => recd.1,
     findResult result ++ recd.2)

/-- `parseResults` (result.go lines 1349-1364): the deduplicated rules and
the flattened scan results of a collection. -/
def parseResults (results : List ScanResult) : List SarifDriverRule × List SarifScanResult :=
  parseResultsAux [] results

/-! ## GL-SAST (merge-request) encoder (result.go lines 1271-1332) -/

structure GlItem where
  signatureAlgorithm : String
  file : String
  endLine : Nat
  startLine : Nat
deriving DecidableEq

structure GlVulnerability where
  id : String
  category : String
  name : String
  message : String
  description : String
  cve : String
  severity : String
  confidence : String
  solution : String
  scannerID : String
  scannerName : String
  identifierURL : String
  identifierValue : String
  trackingItems : List GlItem
  locationFile : String
  locationStartLine : Nat
  locationEndLine : Nat
deriving DecidableEq

/-- `parseGlSastVulnerability` (result.go lines 1279-1332). The Go code
reads `Nodes[0]` unconditionally; an empty node list makes that index
out of range (runtime panic), modelled as `none`. -/
def parseGlSastVulnerability (summaryBaseURI : String) (result : ScanResult) :
    Option GlVulnerability :=
  match result.scanResultData.nodes with
  | [] => none
  | node :: _ =>
    let queryName := result.scanResultData.queryName
    let fileName := node.fileName
    let lineNumber := toString node.line
    let startLine := node.line
    let endLine := node.line + node.length
    let vulnID := queryName ++ ":" ++ fileName ++ ":" ++ lineNumber
    let category := vendorName ++ "-" ++ result.type
    some
      { id := vulnID
        category := category
        name := queryName
        message := queryName ++ "@" ++ fileName ++ ":" ++ lineNumber
        description := result.description
        cve := vulnID
        severity := titleCase (toLowerStr result.severity)
        confidence := titleCase (toLowerStr result.severity)
        solution := ""
        scannerID := category
        scannerName := category
        identifierURL := summaryBaseURI
        identifierValue := result.id
        trackingItems := [{ signatureAlgorithm := result.type ++ "-Algorithm "
                            file := fileName
                            endLine := endLine
                            startLine := startLine }]
        locationFile := fileName
        locationStartLine := startLine
        locationEndLine := endLine }

/-- `convertCxResultToGlVulnerability` (result.go lines 1271-1277): every
SAST-typed result is appended in order; a panic inside
`parseGlSastVulnerability` (empty node list) aborts the whole encoding,
modelled by propagating `none`. -/
def convertCxResultToGlVulnerability (summaryBaseURI : String) :
    List ScanResult → Option (List GlVulnerability)
  | [] => some []
  | result :: rest =>
    if trimSpace result.type == sastType then
      match parseGlSastVulnerability summaryBaseURI result with
      | none => none
      | some v =>
        match convertCxResultToGlVulnerability summaryBaseURI rest with
        | none => none
        | some vs => some (v :: vs)
    else convertCxResultToGlVulnerability summaryBaseURI rest

/-! ## SCA enrichment (`addPackageInformation`, result.go lines 1670-1754) -/

/-- Modelled from the spec: `util.RoundFloat(score, 1)` (internal/commands/
util, not under src/) — rounds the numeric risk score to one decimal place.
The score is modelled as a rational number. -/
def roundToOneDecimal (q : ℚ) : ℚ := (round (q * 10) : ℤ) / 10

/-- Modelled from the spec: `util.IsPackageFileSupported` (not under src/)
— whether a location's file type is recognized as fixable. The particular
list is a representative stand-in; no theorem depends on its contents. -/
def isPackageFileSupported (location : String) : Bool :=
  ["package.json", "go.mod", "pom.xml", "requirements.txt"].any
    (fun name => name.data.isSuffixOf location.data)

/-- The Go `https://devhub.checkmarx.com/cve-details/` prefix (result.go
line 1738). -/
def fixLinkPrefix : String := "https://devhub.checkmarx.com/cve-details/"

/-- Go map semantics of `locationsByID`/`typesByCVE` building (result.go
lines 1670-1687): for duplicate keys the last assignment wins. -/
def lookupLastPackage (scaPackageModel : List ScaPackageCollection) (id : String) :
    Option ScaPackageCollection :=
  scaPackageModel.foldl (fun acc p => if p.id == id then some p else acc) none

/-- See `lookupLastPackage`. -/
def lookupLastType (scaTypeModel : List ScaTypeCollection) (id : String) :
    Option ScaTypeCollection :=
  scaTypeModel.foldl (fun acc t => if t.id == id then some t else acc) none

/-- The maps of `buildAuxiliaryScaMaps` are populated only when some result
is SCA-typed (the building loops run once per SCA result). -/
def hasScaResult (results : List ScanResult) : Bool :=
  results.any (fun r => r.type == scaType)

/-- `buildAuxiliaryScaMaps` (result.go lines 1670-1687), locations map: a
missing key yields the Go nil slice, modelled as the empty list. -/
def buildLocationsByID (results : List ScanResult)
    (scaPackageModel : List ScaPackageCollection) : String → List String :=
  fun id =>
    if hasScaResult results then
      match lookupLastPackage scaPackageModel id with
      | some p => p.locations
      | none => []
    else []

/-- `buildAuxiliaryScaMaps` (result.go lines 1670-1687), types map. -/
def buildTypesByCVE (results : List ScanResult)
    (scaTypeModel : List ScaTypeCollection) : String → Option ScaTypeCollection :=
  fun id => if hasScaResult results then lookupLastType scaTypeModel id else none

/-- `buildScaType` (result.go lines 1689-1695); the Go comma-ok map read is
the `Option` match. -/
def buildScaType (typesByCVE : String → Option ScaTypeCollection) (result : ScanResult) :
    String :=
  match typesByCVE result.id with
  | some types => if types.type == "SupplyChain" then "Supply Chain" else "Vulnerability"
  | none => "Vulnerability"

/-- `buildScaState` (result.go lines 1697-1703). -/
def buildScaState (typesByCVE : String → Option ScaTypeCollection) (result : ScanResult) :
    String :=
  match typesByCVE result.id with
  | some types => if types.isIgnored then notExploitable else result.state
  | none => result.state

/-- The head mutation of one dependency path (result.go lines 1729-1734):
the head's locations are fetched from the map and its quick-fix flag is
recomputed from scratch as (single-element path) AND (every fetched
location is of a supported file type). An empty path makes the Go
`&dependencyPath[0]` panic; theorems about this code assume non-empty
paths and the empty case is mapped to itself. -/
def updateHead (locationsByID : String → List String) (path : List DependencyPath) :
    List DependencyPath :=
  match path with
  | [] => []
  | head :: rest =>
    { head with
        locations := locationsByID head.id
        supportsQuickFix :=
          (locationsByID head.id).foldl
            (fun acc location => acc && isPackageFileSupported location)
            (path.length == 1) } :: rest

/-- The head flag ORed into the package-level flag (result.go line 1735),
read from an already-updated path. -/
def pathHeadFlag (path : List DependencyPath) : Bool :=
  match path with
  | [] => false
  | head :: _ => head.supportsQuickFix

/-- The package loop of `addPackageInformation` (result.go lines 1725-1750):
find the first package matching the result's package identifier (`break`),
update every dependency path's head in place in the shared backing array
(hence the updated model list is returned), and build the enriched copy
attached to the result: updated paths, the package-level quick-fix flag
OR-accumulated over the fresh head flags starting from the package's stored
flag (which itself is never mutated), the fix link derived from the CVE
name, and the direct/transitive classification. -/
def enrichFirstMatch (locationsByID : String → List String) (cveName currentID : String) :
    List ScaPackageCollection → List ScaPackageCollection × Option ScaPackageCollection
  | [] => ([], none)
  | pkg :: rest =>
    if pkg.id == currentID then
      let newPaths := pkg.dependencyPathArray.map (updateHead locationsByID)
      let attached : ScaPackageCollection :=
        { pkg with
            dependencyPathArray := newPaths
            supportsQuickFix :=
              newPaths.foldl (fun acc path => acc || pathHeadFlag path) pkg.supportsQuickFix
            fixLink := if cveName != "" then fixLinkPrefix ++ cveName else ""
            typeOfDependency :=
              if pkg.isDirectDependency then directDependencyType
              else indirectDependencyType }
      ({ pkg with dependencyPathArray := newPaths } :: rest, some attached)
    else
      let em := enrichFirstMatch locationsByID cveName currentID rest
      (pkg :: em.1, em.2)

/-- The per-result field enrichment of `addPackageInformation` (result.go
lines 1717-1724): round the score, set the SCA type, overwrite the state. -/
def enrichResultFields (typesByCVE : String → Option ScaTypeCollection)
    (result : ScanResult) : ScanResult :=
  { result with
      vulnerabilityDetails :=
        { result.vulnerabilityDetails with
            cvssScore := roundToOneDecimal result.vulnerabilityDetails.cvssScore }
      scaType := buildScaType typesByCVE result
      state := buildScaState typesByCVE result }

/-- The `result.ScanResultData.ScaPackageCollection = &currentPackage`
assignment (result.go line 1747); with no matching package the result's
attachment is left as it was. -/
def withAttachment (result : ScanResult) : Option ScaPackageCollection → ScanResult
  | some attached =>
    { result with scanResultData :=
        { result.scanResultData with scaPackageCollection := some attached } }
  | none => result

/-- One iteration of the main loop of `addPackageInformation` (result.go
lines 1713-1752): non-SCA results are skipped; an SCA result is
field-enriched and the matching package's enriched copy is attached to it;
the in-place head mutations of the shared package model are threaded as the
returned model list. -/
def processResult (locationsByID : String → List String)
    (typesByCVE : String → Option ScaTypeCollection)
    (scaPackageModel : List ScaPackageCollection) (result : ScanResult) :
    ScanResult × List ScaPackageCollection :=
  if !(result.type == scaType) then (result, scaPackageModel)
  else
    let r1 := enrichResultFields typesByCVE result
    let em := enrichFirstMatch locationsByID r1.vulnerabilityDetails.cveName
      r1.scanResultData.packageIdentifier scaPackageModel
    (withAttachment r1 em.2, em.1)

/-- The main loop of `addPackageInformation` over the result list, threading
the shared (mutated-in-place) package model. -/
def processAll (locationsByID : String → List String)
    (typesByCVE : String → Option ScaTypeCollection) :
    List ScanResult → List ScaPackageCollection →
      List ScanResult × List ScaPackageCollection
  | [], scaPackageModel => ([], scaPackageModel)
  | result :: rest, scaPackageModel =>
    let rp := processResult locationsByID typesByCVE scaPackageModel result
    let recd := processAll locationsByID typesByCVE rest rp.2
    (rp.1 :: recd.1, recd.2)

/-- `addPackageInformation` (result.go lines 1705-1754). Go mutates the
result collection and, through the dependency-path head pointers, the
caller's package model; both are returned (results, package model). -/
def addPackageInformation (resultsModel : List ScanResult)
    (scaPackageModel : List ScaPackageCollection)
    (scaTypeModel : List ScaTypeCollection) :
    List ScanResult × List ScaPackageCollection :=
  let locationsByID := buildLocationsByID resultsModel scaPackageModel
  let typesByCVE := buildTypesByCVE resultsModel scaTypeModel
  processAll locationsByID typesByCVE resultsModel scaPackageModel

/-! ## Sample values used by counterexamples and witnesses -/

/-- A completed-scan summary whose KICS and SAST counters both carry the
sentinel. -/
def twoSentinelSummary : ResultSummary :=
  { status := "Completed", riskStyle := "", riskMsg := "", highIssues := 0,
    mediumIssues := 0, lowIssues := 0, infoIssues := 0, sastIssues := -1,
    kicsIssues := -1, scaIssues := 0, totalIssues := -2,
    enginesEnabled := [] }

/-- A completed-scan summary whose KICS counter alone carries the
sentinel. -/
def kicsSentinelSummary : ResultSummary :=
  { status := "Completed", riskStyle := "", riskMsg := "", highIssues := 0,
    mediumIssues := 0, lowIssues := 0, infoIssues := 0, sastIssues := 0,
    kicsIssues := -1, scaIssues := 0, totalIssues := -1,
    enginesEnabled := ["sast"] }

/-- A completed scan with SCA enabled whose SCA counter alone carries the
sentinel (SCA engine failed, the other engines ran cleanly). -/
def scaFailedSummary : ResultSummary :=
  { status := "Completed", riskStyle := "", riskMsg := "", highIssues := 0,
    mediumIssues := 0, lowIssues := 0, infoIssues := 0, sastIssues := 0,
    kicsIssues := 0, scaIssues := -1, totalIssues := -1,
    enginesEnabled := ["sast", "sca"] }

/-- Like `scaFailedSummary` but with the KICS engine also failed. -/
def scaAndKicsFailedSummary : ResultSummary :=
  { status := "Completed", riskStyle := "", riskMsg := "", highIssues := 0,
    mediumIssues := 0, lowIssues := 0, infoIssues := 0, sastIssues := 0,
    kicsIssues := -1, scaIssues := -1, totalIssues := -2,
    enginesEnabled := ["sast", "sca"] }

/-- A scan whose three engines all failed or were canceled. -/
def allFailedScan : ScanInfo :=
  { status := "Failed",
    statusDetails := [{ name := "sast", status := "Failed" },
                      { name := "sca", status := "Failed" },
                      { name := "kics", status := "Canceled" }],
    engines := ["sast", "sca", "kics"] }

/-! ## C3: sentinel coercion, else-if chain -/

/-- Claim C3 states that every per-engine counter equal to −1 before
`convertNotAvailableNumberToZero` equals 0 after it, regardless of how many
counters are −1 simultaneously. The code's else-if chain (result.go lines
1660-1668) coerces at most one counter per call: on a summary whose KICS
and SAST counters are both −1, KICS is zeroed and the SAST sentinel
survives. -/
theorem convertNotAvailable_skips_second_sentinel :
    twoSentinelSummary.kicsIssues = notAvailableNumber ∧
    twoSentinelSummary.sastIssues = notAvailableNumber ∧
    (convertNotAvailableNumberToZero twoSentinelSummary).kicsIssues = 0 ∧
    (convertNotAvailableNumberToZero twoSentinelSummary).sastIssues = notAvailableNumber := by
  decide

/-! ## C10: raw signed sum and the "No Risk" label -/

/-- Claim C10: `enhanceWithScanSummary` assigns `TotalIssues` the raw signed
sum of the three per-engine counters even when some carry the sentinel −1;
a scan with all three engines failed/canceled and no counted finding ends
with `TotalIssues = −3`, and the "No Risk" label (which requires
`TotalIssues = 0`) is not produced: the risk message stays empty. -/
theorem totalIssues_raw_sum_with_sentinels :
    (∀ (summary : ResultSummary) (results : List ScanResult),
      (enhanceWithScanSummary summary results).totalIssues =
        (enhanceWithScanSummary summary results).sastIssues +
          (enhanceWithScanSummary summary results).scaIssues +
          (enhanceWithScanSummary summary results).kicsIssues) ∧
    (summaryReport (convertScanToResultsSummary allFailedScan) []).totalIssues = -3 ∧
    (summaryReport (convertScanToResultsSummary allFailedScan) []).riskMsg = "" := by
  refine ⟨fun summary results => rfl, ?_, ?_⟩ <;> decide

/-! ## C2: the display coercion mutates the shared Summary -/

/-- Claim C2 states the sentinel-to-zero display coercion operates on a copy
and the authoritative Summary handed to the other encoders is unchanged.
It is false: rendering the HTML summary for a summary whose KICS counter is
−1 hands the later encoders a mutated Summary (KICS now 0). -/
theorem createReport_mutates_shared_summary :
    (createReport formatSummary kicsSentinelSummary).2 ≠ kicsSentinelSummary := by
  decide

/-- Claim C2 amended: the coercion is performed in place on the shared
Summary, not on a copy. After rendering the HTML, JSON or Markdown summary
format — or the SBOM format, whenever the scan status lets its branch run —
the Summary handed to the remaining encoders equals
`convertNotAvailableNumberToZero` of its previous value — in particular,
when the KICS counter held the sentinel it now holds 0 and the Summary has
changed — while the non-coercing formats (console summary, GL) leave it
unchanged. -/
theorem createReport_coercion_in_place (s : ResultSummary) :
    (createReport formatSummary s).2 = convertNotAvailableNumberToZero s ∧
    (createReport formatSummaryJSON s).2 = convertNotAvailableNumberToZero s ∧
    (createReport formatSummaryMarkdown s).2 = convertNotAvailableNumberToZero s ∧
    (isValidScanStatus s.status = true →
      (createReport formatSbom s).2 = convertNotAvailableNumberToZero s) ∧
    (createReport formatSummaryConsole s).2 = s ∧
    (createReport formatGL s).2 = s ∧
    (s.kicsIssues = notAvailableNumber →
      (createReport formatSummary s).2.kicsIssues = 0 ∧
        (createReport formatSummary s).2 ≠ s) := by
  refine ⟨rfl, rfl, rfl, fun hv => ?_, rfl, rfl, fun h => ?_⟩
  · have hstep : createReport formatSbom s =
        (let s2 := convertNotAvailableNumberToZero s
         if !(contains s2.enginesEnabled scaType) then (.sbomEngineMissingError, s2)
         else if s2.scaIssues == notAvailableNumber then (.sbomEngineFailedError, s2)
         else (.sbomReport, s2)) := by
      unfold createReport
      rw [hv]
      rfl
    rw [hstep]
    dsimp only
    split
    · rfl
    · split <;> rfl
  · have hc : (createReport formatSummary s).2 = { s with kicsIssues := 0 } := by
      show convertNotAvailableNumberToZero s = _
      unfold convertNotAvailableNumberToZero
      simp [h, notAvailableNumber]
    refine ⟨by rw [hc], ?_⟩
    rw [hc]
    intro he
    have hk := congrArg ResultSummary.kicsIssues he
    simp only at hk
    rw [h] at hk
    exact absurd hk (by decide)

/-- Witness for the amended C2 theorem at a concrete summary: the SBOM
branch runs (completed scan) and hands on the coerced Summary, and the
HTML summary rendering observably mutates the shared Summary. -/
theorem createReport_coercion_in_place_witness :
    ((createReport formatSbom kicsSentinelSummary).2 =
        convertNotAvailableNumberToZero kicsSentinelSummary) ∧
    (createReport formatSummary kicsSentinelSummary).2.kicsIssues = 0 ∧
      (createReport formatSummary kicsSentinelSummary).2 ≠ kicsSentinelSummary :=
  ⟨(createReport_coercion_in_place kicsSentinelSummary).2.2.2.1 (by decide),
   (createReport_coercion_in_place kicsSentinelSummary).2.2.2.2.2.2 rfl⟩

/-! ## C5: the async report job pollers -/

/-- Claim C5 states the poller fed statuses [Started, Exporting, Completed]
terminates completed with exactly one download. It is false for both
pollers: `Exporting` is outside the PDF poller's in-progress set
{started, requested}, so the PDF poller fails at `Exporting` with no
download; `started` is outside the SBOM poller's in-progress set
{Exporting, Pending}, so the SBOM poller fails at `started` with no
download. -/
theorem poller_started_exporting_completed_fails :
    exportPdfResults [startedStatus, exportingStatus, completedStatus] =
      .failed exportingStatus 0 ∧
    exportSbomResults [startedStatus, exportingStatus, completedStatus] =
      .failed startedStatus 0 := by
  decide

/-- Claim C5 amended: each poller has its own in-progress vocabulary (PDF:
started/requested; SBOM: Exporting/Pending). Fed a sequence of its own
in-progress statuses ending in completed, each poller terminates completed
and performs exactly one download; fed an in-progress status followed by
"SomeOtherStatus", each terminates with a failure embedding that status
string and performs no download call. -/
theorem pollers_complete_or_fail_with_status :
    exportPdfResults [startedStatus, requestedStatus, completedStatus] = .completed 1 ∧
    exportPdfResults [startedStatus, "SomeOtherStatus"] = .failed "SomeOtherStatus" 0 ∧
    exportSbomResults [exportingStatus, pendingStatus, completedStatus] = .completed 1 ∧
    exportSbomResults [exportingStatus, "SomeOtherStatus"] = .failed "SomeOtherStatus" 0 := by
  decide

/-! ## C6: the SBOM precondition check -/

/-- Claim C6 states that an SBOM request errors out before the encoder
whenever SCA is absent from the enabled-engine set or the SCA counter
carries the sentinel. The code (result.go lines 877-894) runs
`convertNotAvailableNumberToZero` before the checks, and the else-if chain
of that function zeroes a lone SCA sentinel: for a scan with SCA enabled,
SCA failed (counter −1) and the two other counters non-sentinel, the check
passes and the SBOM encoder is invoked. The check fires only when another
counter earlier in the chain also holds the sentinel. -/
theorem sbom_precondition_defeated :
    scaFailedSummary.scaIssues = notAvailableNumber ∧
    contains scaFailedSummary.enginesEnabled scaType = true ∧
    (createReport formatSbom scaFailedSummary).1 = .sbomReport ∧
    (createReport formatSbom scaAndKicsFailedSummary).1 = .sbomEngineFailedError := by
  decide

/-! ## C9: the GL-SAST encoder requires non-empty node lists -/

/-- Claim C9: `parseGlSastVulnerability` unconditionally reads `Nodes[0]`,
so the GL-SAST encoding of a collection is defined (no out-of-range panic)
exactly when every SAST-typed result has a non-empty source-node list; one
SAST result with an empty node list makes the whole encoding undefined. -/
theorem glsast_defined_iff_sast_nodes_nonempty (summaryBaseURI : String)
    (results : List ScanResult) :
    (convertCxResultToGlVulnerability summaryBaseURI results).isSome = true ↔
      ∀ r ∈ results, trimSpace r.type = sastType → r.scanResultData.nodes ≠ [] := by
  induction results with
  | nil => simp [convertCxResultToGlVulnerability]
  | cons r rest ih =>
    unfold convertCxResultToGlVulnerability
    by_cases ht : (trimSpace r.type == sastType) = true
    · rw [if_pos ht]
      have ht' : trimSpace r.type = sastType := by simpa using ht
      cases hn : r.scanResultData.nodes with
      | nil =>
        have hp : parseGlSastVulnerability summaryBaseURI r = none := by
          unfold parseGlSastVulnerability
          rw [hn]
        rw [hp]
        constructor
        · intro h
          exact absurd h (by simp)
        · intro h
          exact absurd hn (h r (List.mem_cons_self r rest) ht')
      | cons node tl =>
        have hp : ∃ v, parseGlSastVulnerability summaryBaseURI r = some v := by
          unfold parseGlSastVulnerability
          rw [hn]
          exact ⟨_, rfl⟩
        obtain ⟨v, hv⟩ := hp
        rw [hv]
        constructor
        · intro h r' hr' hty
          rcases List.mem_cons.mp hr' with h1 | h1
          · subst h1
            rw [hn]
            simp
          · cases hc : convertCxResultToGlVulnerability summaryBaseURI rest with
            | none =>
              rw [hc] at h
              simp at h
            | some vs => exact (ih.mp (by rw [hc]; rfl)) r' h1 hty
        · intro h
          have hrest : (convertCxResultToGlVulnerability summaryBaseURI rest).isSome = true :=
            ih.mpr (fun r' hr' hty => h r' (List.mem_cons_of_mem r hr') hty)
          cases hc : convertCxResultToGlVulnerability summaryBaseURI rest with
          | none =>
            rw [hc] at hrest
            simp at hrest
          | some vs => rfl
    · rw [if_neg ht]
      rw [ih]
      have ht' : ¬ trimSpace r.type = sastType := by simpa using ht
      constructor
      · intro h r' hr' hty
        rcases List.mem_cons.mp hr' with h1 | h1
        · subst h1
          exact absurd hty ht'
        · exact h r' h1 hty
      · intro h r' hr' hty
        exact h r' (List.mem_cons_of_mem r hr') hty

/-! ## C7: SARIF rule deduplication -/

/-- Evaluation of `findRule` when the rule identifier was already seen. -/
theorem findRule_mem (ruleIds : List String) (r : ScanResult)
    (hm : (findRuleID r).1 ∈ ruleIds) : findRule ruleIds r = (ruleIds, none) := by
  simp [findRule, hm]

/-- Evaluation of `findRule` on a fresh rule identifier. -/
theorem findRule_not_mem (ruleIds : List String) (r : ScanResult)
    (hm : (findRuleID r).1 ∉ ruleIds) :
    findRule ruleIds r = ((findRuleID r).1 :: ruleIds,
      some { id := (findRuleID r).1
             name := (findRuleID r).2.1
             fullDescriptionText := findDescriptionText r
             help := { text := findDescriptionText r, markdown := findHelpMarkdownText r }
             helpURI := sarifInformationURI
             properties := findProperties r }) := by
  simp [findRule, hm]

/-- Freshness invariant of the SARIF rule loop: every emitted rule carries
an identifier not in the incoming `ruleIds` accumulator, and the emitted
identifiers are duplicate-free. -/
theorem parseResultsAux_rules_fresh (results : List ScanResult) : ∀ ruleIds : List String,
    (∀ rule ∈ (parseResultsAux ruleIds results).1, rule.id ∉ ruleIds) ∧
      ((parseResultsAux ruleIds results).1.map SarifDriverRule.id).Nodup := by
  induction results with
  | nil =>
    intro ruleIds
    constructor
    · intro rule hr
      simp [parseResultsAux] at hr
    · simp [parseResultsAux]
  | cons r rest ih =>
    intro ruleIds
    by_cases hm : (findRuleID r).1 ∈ ruleIds
    · have heq : (parseResultsAux ruleIds (r :: rest)).1 =
          (parseResultsAux ruleIds rest).1 := by
        simp only [parseResultsAux]
        rw [findRule_mem ruleIds r hm]
      rw [heq]
      exact ih ruleIds
    · obtain ⟨ih1, ih2⟩ := ih ((findRuleID r).1 :: ruleIds)
      have heq : ∃ rule : SarifDriverRule, rule.id = (findRuleID r).1 ∧
          (parseResultsAux ruleIds (r :: rest)).1 =
            rule :: (parseResultsAux ((findRuleID r).1 :: ruleIds) rest).1 := by
        refine ⟨{ id := (findRuleID r).1
                  name := (findRuleID r).2.1
                  fullDescriptionText := findDescriptionText r
                  help := { text := findDescriptionText r, markdown := findHelpMarkdownText r }
                  helpURI := sarifInformationURI
                  properties := findProperties r }, rfl, ?_⟩
        simp only [parseResultsAux]
        rw [findRule_not_mem ruleIds r hm]
      obtain ⟨rule, hruleid, heq⟩ := heq
      rw [heq]
      constructor
      · intro rule' hr'
        rcases List.mem_cons.mp hr' with h1 | h1
        · subst h1
          rw [hruleid]
          exact hm
        · intro hmem
          exact ih1 rule' h1 (List.mem_cons_of_mem _ hmem)
      · rw [List.map_cons, List.nodup_cons]
        refine ⟨?_, ih2⟩
        intro hmem
        obtain ⟨rule', hr', hid⟩ := List.mem_map.mp hmem
        have hni := ih1 rule' hr'
        rw [hid, hruleid] at hni
        exact hni (List.mem_cons_self _ _)

/-- Claim C7: SARIF rule entries are deduplicated by rule identifier with
the first occurrence winning — two findings with the same (non-nil) query
id and the same engine type produce exactly one rule entry, and for every
collection the emitted rule identifiers are pairwise distinct. -/
theorem sarif_rule_dedup (r₁ r₂ : ScanResult) (results : List ScanResult)
    (hq : r₁.scanResultData.queryID = r₂.scanResultData.queryID)
    (ht : r₁.type = r₂.type)
    (hs : r₁.scanResultData.queryID.isSome = true) :
    (parseResults [r₁, r₂]).1.length = 1 ∧
      ((parseResults results).1.map SarifDriverRule.id).Nodup := by
  refine ⟨?_, (parseResultsAux_rules_fresh results []).2⟩
  obtain ⟨q, hq1⟩ := Option.isSome_iff_exists.mp hs
  have hq2 : r₂.scanResultData.queryID = some q := hq ▸ hq1
  have hid : (findRuleID r₂).1 = (findRuleID r₁).1 := by
    unfold findRuleID
    rw [hq1, hq2, ht]
  unfold parseResults
  simp [parseResultsAux, findRule, hid]

/-- Witness inputs: a SAST finding with one node, a high severity and an
exploitable state. -/
def witSastResult : ScanResult :=
  { id := "r1", type := "sast", state := "TO_VERIFY", severity := "HIGH",
    description := "d", scaType := "",
    vulnerabilityDetails := { cvssScore := 0, cveName := "" },
    scanResultData :=
      { queryID := some "Q1", queryName := "SQL_Injection", packageIdentifier := "",
        nodes := [{ fileName := "/app/main.go", line := 10, column := 3, length := 5 }],
        filename := "", line := 0, value := "", expectedValue := "",
        scaPackageCollection := none } }

/-- Witness input: a fresh completed-scan summary with all engines
enabled and all counters zero. -/
def witBaseSummary : ResultSummary :=
  { status := "Completed", riskStyle := "", riskMsg := "", highIssues := 0,
    mediumIssues := 0, lowIssues := 0, infoIssues := 0, sastIssues := 0,
    kicsIssues := 0, scaIssues := 0, totalIssues := 0,
    enginesEnabled := ["sast", "sca", "kics"] }

/-- Witness for the SARIF rule-deduplication theorem: two findings sharing
the query id `Q1` and the engine type yield exactly one rule entry. -/
theorem sarif_rule_dedup_witness :
    (parseResults [witSastResult, witSastResult]).1.length = 1 ∧
      ((parseResults [witSastResult, witSastResult]).1.map SarifDriverRule.id).Nodup :=
  sarif_rule_dedup witSastResult witSastResult [witSastResult, witSastResult] rfl rfl rfl

/-! ## C4: the counting pass -/

/-- The Summary's per-engine counter selected by an engine-type string of
the closed engine set. -/
def engineCounterOf (s : ResultSummary) (t : String) : Int :=
  if t = sastType then s.sastIssues else if t = scaType then s.scaIssues else s.kicsIssues

/-- The Summary's severity counter selected by a severity label of the
closed severity set. -/
def severityCounterOf (s : ResultSummary) (v : String) : Int :=
  if v = highLabel then s.highIssues
  else if v = lowLabel then s.lowIssues
  else if v = mediumLabel then s.mediumIssues
  else s.infoIssues

/-- Claim C4: for a scan result whose trimmed engine type lies in the
closed engine set and whose lower-cased severity lies in the closed
severity set, `countResult` increments exactly the engine counter matching
its trimmed engine type and exactly the severity counter matching its
lower-cased severity when the engine type is in the Summary's
enabled-engine set and the state is exploitable; otherwise it leaves the
Summary entirely unchanged. -/
theorem countResult_counts_iff (summary : ResultSummary) (result : ScanResult)
    (htype : trimSpace result.type = sastType ∨ trimSpace result.type = scaType ∨
      trimSpace result.type = kicsType)
    (hsev : toLowerStr result.severity = highLabel ∨ toLowerStr result.severity = lowLabel ∨
      toLowerStr result.severity = mediumLabel ∨ toLowerStr result.severity = infoLabel) :
    ((contains summary.enginesEnabled (trimSpace result.type)
        && isExploitable result.state) = true →
      engineCounterOf (countResult summary result) (trimSpace result.type)
          = engineCounterOf summary (trimSpace result.type) + 1 ∧
      (∀ t, (t = sastType ∨ t = scaType ∨ t = kicsType) → t ≠ trimSpace result.type →
        engineCounterOf (countResult summary result) t = engineCounterOf summary t) ∧
      severityCounterOf (countResult summary result) (toLowerStr result.severity)
          = severityCounterOf summary (toLowerStr result.severity) + 1 ∧
      (∀ v, (v = highLabel ∨ v = lowLabel ∨ v = mediumLabel ∨ v = infoLabel) →
        v ≠ toLowerStr result.severity →
        severityCounterOf (countResult summary result) v = severityCounterOf summary v)) ∧
    ((contains summary.enginesEnabled (trimSpace result.type)
        && isExploitable result.state) = false →
      countResult summary result = summary) := by
  constructor
  · intro h
    rw [Bool.and_eq_true] at h
    obtain ⟨hcont, hexp⟩ := h
    rcases htype with hty | hty | hty <;> rcases hsev with hsv | hsv | hsv | hsv <;>
      rw [hty] at hcont ⊢ <;> rw [hsv] <;> refine ⟨?_, ?_, ?_, ?_⟩
    all_goals try rintro t (rfl | rfl | rfl) hne
    all_goals try rintro v (rfl | rfl | rfl | rfl) hne
    all_goals try exact absurd rfl hne
    all_goals
      simp only [countResult, hty, hsv, hcont, hexp, engineCounterOf, severityCounterOf,
        sastType, scaType, kicsType, highLabel, lowLabel, mediumLabel, infoLabel,
        Bool.and_self, if_true, if_false, Bool.not_true, Bool.not_false]
    all_goals simp_all [sastType, scaType, kicsType]
  · intro h
    simp [countResult, h]

/-- Witness for the counting theorem: a counted SAST/high finding bumps
the SAST counter by one. -/
theorem countResult_counts_iff_witness :
    engineCounterOf (countResult witBaseSummary witSastResult) (trimSpace witSastResult.type)
      = engineCounterOf witBaseSummary (trimSpace witSastResult.type) + 1 :=
  ((countResult_counts_iff witBaseSummary witSastResult (Or.inl (by decide))
    (Or.inl (by decide))).1 (by decide)).1

/-! ## C1: TotalIssues equals the sum of the engine counters -/

/-- Claim C1: a Summary produced by `enhanceWithScanSummary` followed by
the three sentinel adjustments and the risk label satisfies
`TotalIssues = SastIssues + ScaIssues + KicsIssues` whenever none of the
three per-engine counters of the produced Summary equals the sentinel
−1. -/
theorem summaryReport_total_eq_sum (summary : ResultSummary) (results : List ScanResult)
    (h1 : (summaryReport summary results).sastIssues ≠ notAvailableNumber)
    (h2 : (summaryReport summary results).scaIssues ≠ notAvailableNumber)
    (h3 : (summaryReport summary results).kicsIssues ≠ notAvailableNumber) :
    (summaryReport summary results).totalIssues =
      (summaryReport summary results).sastIssues +
        (summaryReport summary results).scaIssues +
        (summaryReport summary results).kicsIssues := by
  revert h1 h2 h3
  unfold summaryReport
  generalize hgen : enhanceWithScanSummary summary results = s1
  have htot : s1.totalIssues = s1.sastIssues + s1.scaIssues + s1.kicsIssues := by
    rw [← hgen]
    rfl
  clear hgen
  unfold setNotAvailableNumberIfZeroSast setNotAvailableNumberIfZeroSca
    setNotAvailableNumberIfZeroKics setRiskMsgAndStyle
  dsimp only
  repeat' split
  all_goals intro h1 h2 h3
  all_goals simp_all [notAvailableNumber]

/-- Witness for the total-equals-sum theorem on a concrete clean scan with
one counted SAST finding. -/
theorem summaryReport_total_eq_sum_witness :
    (summaryReport witBaseSummary [witSastResult]).totalIssues =
      (summaryReport witBaseSummary [witSastResult]).sastIssues +
        (summaryReport witBaseSummary [witSastResult]).scaIssues +
        (summaryReport witBaseSummary [witSastResult]).kicsIssues :=
  summaryReport_total_eq_sum witBaseSummary [witSastResult]
    (by decide) (by decide) (by decide)

/-! ## C8: idempotence of the SCA enrichment

The Go function mutates the caller's package model in place through the
dependency-path head pointers; re-running it with "the same package table"
therefore means running it on the table state left by the first run. The
lemmas below track that mutation: `pathUpdate` is the head-refresh a
package undergoes when some result matches it, `pkgFuture`/`pmFuture`
relate a package model to any state it can reach during a run, and the
stability lemmas show a second run moves nothing. -/

/-- The in-place mutation one matched package undergoes (its dependency
path heads refreshed). -/
def pathUpdate (locationsByID : String → List String) (pkg : ScaPackageCollection) :
    ScaPackageCollection :=
  { pkg with dependencyPathArray := pkg.dependencyPathArray.map (updateHead locationsByID) }

/-- Refreshing a dependency path head twice equals refreshing it once. -/
theorem updateHead_idem (loc : String → List String) (path : List DependencyPath) :
    updateHead loc (updateHead loc path) = updateHead loc path := by
  cases path <;> rfl

/-- Map form of `updateHead_idem`. -/
theorem map_updateHead_idem (loc : String → List String)
    (paths : List (List DependencyPath)) :
    (paths.map (updateHead loc)).map (updateHead loc) = paths.map (updateHead loc) := by
  rw [List.map_map]
  exact List.map_congr_left (fun p _ => by
    simp only [Function.comp_apply]
    exact updateHead_idem loc p)

/-- `pathUpdate` is idempotent. -/
theorem pathUpdate_idem (loc : String → List String) (pkg : ScaPackageCollection) :
    pathUpdate loc (pathUpdate loc pkg) = pathUpdate loc pkg := by
  unfold pathUpdate
  simp only [map_updateHead_idem]

/-- A package is a future of another when it is unchanged or head-refreshed. -/
def pkgFuture (loc : String → List String) (a b : ScaPackageCollection) : Prop :=
  b = a ∨ b = pathUpdate loc a

/-- Pointwise future relation on package models. -/
def pmFuture (loc : String → List String) (pm₁ pm₂ : List ScaPackageCollection) : Prop :=
  List.Forall₂ (pkgFuture loc) pm₁ pm₂

theorem pkgFuture_refl (loc : String → List String) (a : ScaPackageCollection) :
    pkgFuture loc a a := Or.inl rfl

theorem pkgFuture_trans (loc : String → List String) {a b c : ScaPackageCollection}
    (h1 : pkgFuture loc a b) (h2 : pkgFuture loc b c) : pkgFuture loc a c := by
  rcases h1 with rfl | rfl
  · exact h2
  · rcases h2 with rfl | rfl
    · exact Or.inr rfl
    · rw [pathUpdate_idem]
      exact Or.inr rfl

theorem pkgFuture_id (loc : String → List String) {a b : ScaPackageCollection}
    (h : pkgFuture loc a b) : b.id = a.id := by
  rcases h with rfl | rfl <;> rfl

theorem pkgFuture_locations (loc : String → List String) {a b : ScaPackageCollection}
    (h : pkgFuture loc a b) : b.locations = a.locations := by
  rcases h with rfl | rfl <;> rfl

theorem pmFuture_refl (loc : String → List String) (pm : List ScaPackageCollection) :
    pmFuture loc pm pm :=
  List.forall₂_same.mpr (fun a _ => pkgFuture_refl loc a)

theorem pmFuture_trans (loc : String → List String)
    {pm₁ pm₂ pm₃ : List ScaPackageCollection}
    (h1 : pmFuture loc pm₁ pm₂) (h2 : pmFuture loc pm₂ pm₃) : pmFuture loc pm₁ pm₃ := by
  induction h1 generalizing pm₃ with
  | nil =>
    cases h2
    exact List.Forall₂.nil
  | cons hab h1' ih =>
    cases h2 with
    | cons hbc h2' => exact List.Forall₂.cons (pkgFuture_trans loc hab hbc) (ih h2')

/-- The model list returned by `enrichFirstMatch` is a future of its
input. -/
theorem enrichFirstMatch_future (loc : String → List String) (cve id : String)
    (pm : List ScaPackageCollection) :
    pmFuture loc pm (enrichFirstMatch loc cve id pm).1 := by
  induction pm with
  | nil => exact List.Forall₂.nil
  | cons pkg rest ih =>
    by_cases hid : (pkg.id == id) = true
    · have heq : (enrichFirstMatch loc cve id (pkg :: rest)).1 =
          pathUpdate loc pkg :: rest := by
        simp [enrichFirstMatch, hid, pathUpdate]
      rw [heq]
      exact List.Forall₂.cons (Or.inr rfl) (pmFuture_refl loc rest)
    · have heq : (enrichFirstMatch loc cve id (pkg :: rest)).1 =
          pkg :: (enrichFirstMatch loc cve id rest).1 := by
        simp [enrichFirstMatch, hid]
      rw [heq]
      exact List.Forall₂.cons (pkgFuture_refl loc pkg) ih

/-- Evaluation of `enrichFirstMatch` at a matching head package. -/
theorem enrichFirstMatch_cons_match (loc : String → List String) (cve id : String)
    (pkg : ScaPackageCollection) (rest : List ScaPackageCollection)
    (hid : (pkg.id == id) = true) :
    enrichFirstMatch loc cve id (pkg :: rest) =
      (pathUpdate loc pkg :: rest,
       some { pkg with
          dependencyPathArray := pkg.dependencyPathArray.map (updateHead loc)
          supportsQuickFix := (pkg.dependencyPathArray.map (updateHead loc)).foldl
            (fun acc path => acc || pathHeadFlag path) pkg.supportsQuickFix
          fixLink := if cve != "" then fixLinkPrefix ++ cve else ""
          typeOfDependency := if pkg.isDirectDependency then directDependencyType
            else indirectDependencyType }) := by
  simp [enrichFirstMatch, hid, pathUpdate]

/-- Evaluation of `enrichFirstMatch` at a non-matching head package. -/
theorem enrichFirstMatch_cons_nomatch (loc : String → List String) (cve id : String)
    (pkg : ScaPackageCollection) (rest : List ScaPackageCollection)
    (hid : (pkg.id == id) = false) :
    enrichFirstMatch loc cve id (pkg :: rest) =
      (pkg :: (enrichFirstMatch loc cve id rest).1,
       (enrichFirstMatch loc cve id rest).2) := by
  simp [enrichFirstMatch, hid]

/-- Running `enrichFirstMatch` again, on any future of the model it
produced, moves nothing and returns the same attachment. -/
theorem enrichFirstMatch_stable (loc : String → List String) (cve id : String)
    (pm : List ScaPackageCollection) :
    ∀ pm₂ : List ScaPackageCollection,
      pmFuture loc (enrichFirstMatch loc cve id pm).1 pm₂ →
      enrichFirstMatch loc cve id pm₂ = (pm₂, (enrichFirstMatch loc cve id pm).2) := by
  induction pm with
  | nil =>
    intro pm₂ hf
    have h0 : (enrichFirstMatch loc cve id ([] : List ScaPackageCollection)).1 = [] := rfl
    rw [h0] at hf
    cases hf
    rfl
  | cons pkg rest ih =>
    intro pm₂ hf
    by_cases hid : (pkg.id == id) = true
    · rw [enrichFirstMatch_cons_match loc cve id pkg rest hid] at hf ⊢
      cases hf with
      | cons hb hrest =>
        rename_i b rest₂
        have hb' : b = pathUpdate loc pkg := by
          rcases hb with rfl | rfl
          · rfl
          · exact pathUpdate_idem loc pkg
        subst hb'
        have hid' : ((pathUpdate loc pkg).id == id) = true := hid
        rw [enrichFirstMatch_cons_match loc cve id (pathUpdate loc pkg) rest₂ hid']
        simp only [pathUpdate_idem]
        simp [pathUpdate, map_updateHead_idem]
        refine ⟨fun a _ => updateHead_idem loc a, ?_⟩
        rw [← List.map_map, map_updateHead_idem]
    · have hidf : (pkg.id == id) = false := by
        simpa using hid
      rw [enrichFirstMatch_cons_nomatch loc cve id pkg rest hidf] at hf ⊢
      cases hf with
      | cons hb hrest =>
        rename_i b rest₂
        have hbid : (b.id == id) = false := by
          rw [pkgFuture_id loc hb]
          exact hidf
        rw [enrichFirstMatch_cons_nomatch loc cve id b rest₂ hbid]
        rw [ih rest₂ hrest]

/-! Field-preservation facts about `withAttachment`. -/

theorem withAttachment_type (r : ScanResult) (o : Option ScaPackageCollection) :
    (withAttachment r o).type = r.type := by cases o <;> rfl

theorem withAttachment_id (r : ScanResult) (o : Option ScaPackageCollection) :
    (withAttachment r o).id = r.id := by cases o <;> rfl

theorem withAttachment_state (r : ScanResult) (o : Option ScaPackageCollection) :
    (withAttachment r o).state = r.state := by cases o <;> rfl

theorem withAttachment_scaType (r : ScanResult) (o : Option ScaPackageCollection) :
    (withAttachment r o).scaType = r.scaType := by cases o <;> rfl

theorem withAttachment_vd (r : ScanResult) (o : Option ScaPackageCollection) :
    (withAttachment r o).vulnerabilityDetails = r.vulnerabilityDetails := by cases o <;> rfl

theorem withAttachment_pid (r : ScanResult) (o : Option ScaPackageCollection) :
    (withAttachment r o).scanResultData.packageIdentifier =
      r.scanResultData.packageIdentifier := by cases o <;> rfl

theorem withAttachment_absorb (r : ScanResult) (o : Option ScaPackageCollection) :
    withAttachment (withAttachment r o) o = withAttachment r o := by cases o <;> rfl

/-- Rounding to one decimal place is idempotent (the rounded value is an
integer number of tenths). -/
theorem roundToOneDecimal_idem (q : ℚ) :
    roundToOneDecimal (roundToOneDecimal q) = roundToOneDecimal q := by
  unfold roundToOneDecimal
  rw [div_mul_cancel₀ _ (by norm_num : (10 : ℚ) ≠ 0), round_intCast]

/-- `buildScaType` depends only on the result identifier. -/
theorem buildScaType_congr (ty : String → Option ScaTypeCollection)
    {a b : ScanResult} (h : a.id = b.id) : buildScaType ty a = buildScaType ty b := by
  unfold buildScaType
  rw [h]

/-- A result whose state was already overwritten by `buildScaState` is a
fixed point of `buildScaState`. -/
theorem buildScaState_stable (ty : String → Option ScaTypeCollection)
    {r r' : ScanResult} (hid : r'.id = r.id) (hst : r'.state = buildScaState ty r) :
    buildScaState ty r' = r'.state := by
  unfold buildScaState
  rw [hid]
  cases hc : ty r.id with
  | none => rfl
  | some t =>
    by_cases hi : t.isIgnored
    · simp only [hi, if_true]
      rw [hst]
      unfold buildScaState
      rw [hc]
      simp [hi]
    · simp [hi]

/-- The per-result field enrichment is stable on an already-enriched
result, whatever package attachment it carries. -/
theorem enrichResultFields_stable (ty : String → Option ScaTypeCollection)
    (r : ScanResult) (o : Option ScaPackageCollection) :
    enrichResultFields ty (withAttachment (enrichResultFields ty r) o) =
      withAttachment (enrichResultFields ty r) o := by
  set r' := withAttachment (enrichResultFields ty r) o with hr'
  have hid : r'.id = r.id := by
    rw [hr', withAttachment_id]
    rfl
  have hscore : r'.vulnerabilityDetails.cvssScore =
      roundToOneDecimal r.vulnerabilityDetails.cvssScore := by
    rw [hr', withAttachment_vd]
    rfl
  have hsct : r'.scaType = buildScaType ty r := by
    rw [hr', withAttachment_scaType]
    rfl
  have hst : r'.state = buildScaState ty r := by
    rw [hr', withAttachment_state]
    rfl
  unfold enrichResultFields
  have h1 : roundToOneDecimal r'.vulnerabilityDetails.cvssScore =
      r'.vulnerabilityDetails.cvssScore := by
    rw [hscore, roundToOneDecimal_idem]
  have h2 : buildScaType ty r' = r'.scaType := by
    rw [buildScaType_congr ty hid, hsct]
  have h3 : buildScaState ty r' = r'.state := buildScaState_stable ty hid hst
  rw [h1, h2, h3]

/-- Evaluation of `processResult` on a non-SCA result. -/
theorem processResult_nonsca (loc : String → List String)
    (ty : String → Option ScaTypeCollection) (pm : List ScaPackageCollection)
    (r : ScanResult) (h : (r.type == scaType) = false) :
    processResult loc ty pm r = (r, pm) := by
  simp [processResult, h]

/-- Evaluation of `processResult` on an SCA result. -/
theorem processResult_sca (loc : String → List String)
    (ty : String → Option ScaTypeCollection) (pm : List ScaPackageCollection)
    (r : ScanResult) (h : (r.type == scaType) = true) :
    processResult loc ty pm r =
      (withAttachment (enrichResultFields ty r)
        (enrichFirstMatch loc (enrichResultFields ty r).vulnerabilityDetails.cveName
          (enrichResultFields ty r).scanResultData.packageIdentifier pm).2,
       (enrichFirstMatch loc (enrichResultFields ty r).vulnerabilityDetails.cveName
          (enrichResultFields ty r).scanResultData.packageIdentifier pm).1) := by
  simp [processResult, h]

/-- The model list returned by `processResult` is a future of its input. -/
theorem processResult_future (loc : String → List String)
    (ty : String → Option ScaTypeCollection) (pm : List ScaPackageCollection)
    (r : ScanResult) : pmFuture loc pm (processResult loc ty pm r).2 := by
  by_cases h : (r.type == scaType) = true
  · rw [processResult_sca loc ty pm r h]
    exact enrichFirstMatch_future loc _ _ pm
  · rw [processResult_nonsca loc ty pm r (by simpa using h)]
    exact pmFuture_refl loc pm

/-- Re-processing an already-processed result, on any future of the model,
changes neither the result nor the model. -/
theorem processResult_stable (loc : String → List String)
    (ty : String → Option ScaTypeCollection) (pm pm₂ : List ScaPackageCollection)
    (r : ScanResult) (hf : pmFuture loc (processResult loc ty pm r).2 pm₂) :
    processResult loc ty pm₂ (processResult loc ty pm r).1 =
      ((processResult loc ty pm r).1, pm₂) := by
  by_cases h : (r.type == scaType) = true
  · rw [processResult_sca loc ty pm r h] at hf ⊢
    have htype : ((withAttachment (enrichResultFields ty r)
        (enrichFirstMatch loc (enrichResultFields ty r).vulnerabilityDetails.cveName
          (enrichResultFields ty r).scanResultData.packageIdentifier pm).2).type
            == scaType) = true := by
      rw [withAttachment_type]
      exact h
    rw [processResult_sca loc ty pm₂ _ htype]
    rw [enrichResultFields_stable ty r _]
    rw [withAttachment_vd, withAttachment_pid]
    rw [enrichFirstMatch_stable loc
      (enrichResultFields ty r).vulnerabilityDetails.cveName
      (enrichResultFields ty r).scanResultData.packageIdentifier pm pm₂ hf]
    rw [withAttachment_absorb]
  · have hfalse : (r.type == scaType) = false := by simpa using h
    rw [processResult_nonsca loc ty pm r hfalse] at hf ⊢
    exact processResult_nonsca loc ty pm₂ r hfalse

/-- The model list returned by `processAll` is a future of its input. -/
theorem processAll_future (loc : String → List String)
    (ty : String → Option ScaTypeCollection) (rs : List ScanResult) :
    ∀ pm : List ScaPackageCollection, pmFuture loc pm (processAll loc ty rs pm).2 := by
  induction rs with
  | nil => intro pm; exact pmFuture_refl loc pm
  | cons r rest ih =>
    intro pm
    exact pmFuture_trans loc (processResult_future loc ty pm r)
      (ih (processResult loc ty pm r).2)

/-- A second pass of the main loop over its own output moves nothing. -/
theorem processAll_stable (loc : String → List String)
    (ty : String → Option ScaTypeCollection) (rs : List ScanResult) :
    ∀ pm : List ScaPackageCollection,
      processAll loc ty (processAll loc ty rs pm).1 (processAll loc ty rs pm).2 =
        processAll loc ty rs pm := by
  induction rs with
  | nil => intro pm; rfl
  | cons r rest ih =>
    intro pm
    have h1 := processResult_stable loc ty pm
      (processAll loc ty rest (processResult loc ty pm r).2).2 r
      (processAll_future loc ty rest (processResult loc ty pm r).2)
    show processAll loc ty
        ((processResult loc ty pm r).1 ::
          (processAll loc ty rest (processResult loc ty pm r).2).1)
        (processAll loc ty rest (processResult loc ty pm r).2).2 = _
    simp only [processAll]
    rw [h1]
    simp only []
    rw [ih (processResult loc ty pm r).2]

/-! Rebuilding the auxiliary maps after a run yields the same maps. -/

/-- `processResult` never changes a result's engine type. -/
theorem processResult_type (loc : String → List String)
    (ty : String → Option ScaTypeCollection) (pm : List ScaPackageCollection)
    (r : ScanResult) : (processResult loc ty pm r).1.type = r.type := by
  by_cases h : (r.type == scaType) = true
  · rw [processResult_sca loc ty pm r h, withAttachment_type]
    rfl
  · rw [processResult_nonsca loc ty pm r (by simpa using h)]

/-- `processAll` preserves the sequence of engine types. -/
theorem processAll_types (loc : String → List String)
    (ty : String → Option ScaTypeCollection) (rs : List ScanResult) :
    ∀ pm : List ScaPackageCollection,
      ((processAll loc ty rs pm).1).map ScanResult.type = rs.map ScanResult.type := by
  induction rs with
  | nil => intro pm; rfl
  | cons r rest ih =>
    intro pm
    show ((processResult loc ty pm r).1 ::
        (processAll loc ty rest (processResult loc ty pm r).2).1).map ScanResult.type = _
    simp only [List.map_cons]
    rw [processResult_type, ih]

/-- `hasScaResult` depends only on the sequence of engine types. -/
theorem hasScaResult_congr : ∀ {l₁ l₂ : List ScanResult},
    l₁.map ScanResult.type = l₂.map ScanResult.type →
    hasScaResult l₁ = hasScaResult l₂ := by
  intro l₁
  induction l₁ with
  | nil =>
    intro l₂ h
    cases l₂ with
    | nil => rfl
    | cons b bs => simp at h
  | cons a as ih =>
    intro l₂ h
    cases l₂ with
    | nil => simp at h
    | cons b bs =>
      simp only [List.map_cons, List.cons.injEq] at h
      have htail := ih h.2
      unfold hasScaResult at htail ⊢
      simp only [List.any_cons]
      rw [h.1, htail]

/-- Lifting of the future relation to the last-wins map lookup
accumulator. -/
def optPkgFuture (loc : String → List String) :
    Option ScaPackageCollection → Option ScaPackageCollection → Prop
  | none, none => True
  | some a, some b => pkgFuture loc a b
  | _, _ => False

/-- The last-wins fold respects the future relation. -/
theorem lookupLast_future (loc : String → List String) (id : String) :
    ∀ {pm pm₂ : List ScaPackageCollection}, pmFuture loc pm pm₂ →
    ∀ {acc acc₂ : Option ScaPackageCollection}, optPkgFuture loc acc acc₂ →
      optPkgFuture loc
        (pm.foldl (fun acc p => if p.id == id then some p else acc) acc)
        (pm₂.foldl (fun acc p => if p.id == id then some p else acc) acc₂) := by
  intro pm pm₂ hf
  induction hf with
  | nil =>
    intro acc acc₂ ha
    exact ha
  | cons hab htail ih =>
    rename_i a b as bs
    intro acc acc₂ ha
    simp only [List.foldl_cons]
    apply ih
    by_cases hid : (a.id == id) = true
    · have hbid : (b.id == id) = true := by
        rw [pkgFuture_id loc hab]
        exact hid
      rw [if_pos hid, if_pos hbid]
      exact hab
    · have hbid : ¬ ((b.id == id) = true) := by
        rw [pkgFuture_id loc hab]
        exact hid
      rw [if_neg hid, if_neg hbid]
      exact ha

/-- See `lookupLast_future`. -/
theorem lookupLastPackage_future (loc : String → List String) (id : String)
    {pm pm₂ : List ScaPackageCollection} (hf : pmFuture loc pm pm₂) :
    optPkgFuture loc (lookupLastPackage pm id) (lookupLastPackage pm₂ id) :=
  lookupLast_future loc id hf trivial

/-- Rebuilding the locations map from a run's output yields the map the
run used: the head mutations never touch a package's identifier or
locations. -/
theorem buildLocationsByID_stable (rs rs₂ : List ScanResult)
    (pm pm₂ : List ScaPackageCollection)
    (htypes : rs₂.map ScanResult.type = rs.map ScanResult.type)
    (hf : pmFuture (buildLocationsByID rs pm) pm pm₂) :
    buildLocationsByID rs₂ pm₂ = buildLocationsByID rs pm := by
  funext id
  unfold buildLocationsByID
  rw [hasScaResult_congr htypes]
  by_cases hs : hasScaResult rs = true
  · simp only [hs, if_true]
    have hl := lookupLastPackage_future (buildLocationsByID rs pm) id hf
    cases h1 : lookupLastPackage pm id with
    | none =>
      cases h2 : lookupLastPackage pm₂ id with
      | none => rfl
      | some b =>
        rw [h1, h2] at hl
        exact absurd hl (by simp [optPkgFuture])
    | some a =>
      cases h2 : lookupLastPackage pm₂ id with
      | none =>
        rw [h1, h2] at hl
        exact absurd hl (by simp [optPkgFuture])
      | some b =>
        rw [h1, h2] at hl
        exact pkgFuture_locations _ hl
  · simp [hs]

/-- Rebuilding the types map from a run's output yields the map the run
used. -/
theorem buildTypesByCVE_stable (rs rs₂ : List ScanResult) (tm : List ScaTypeCollection)
    (htypes : rs₂.map ScanResult.type = rs.map ScanResult.type) :
    buildTypesByCVE rs₂ tm = buildTypesByCVE rs tm := by
  funext id
  unfold buildTypesByCVE
  rw [hasScaResult_congr htypes]

/-- Claim C8: the SCA enrichment is idempotent. In Go the second call
receives the same (pointer-identified) package and type tables, whose
dependency-path heads the first call mutated in place; this is the pair
`(addPackageInformation rs pm tm).1 / .2` here. Applying the enrichment to
that state changes nothing: the quick-fix head flags and the package-level
OR-accumulation are recomputed from scratch (the accumulation starts from
the stored package flag, which is never mutated), the score rounding is
idempotent, and the state/category overwrites are stable. The hypothesis
excludes empty dependency paths, on which the Go code panics
(`&dependencyPath[0]`). -/
theorem addPackageInformation_idem (rs : List ScanResult)
    (pm : List ScaPackageCollection) (tm : List ScaTypeCollection)
    (hne : ∀ pkg ∈ pm, ∀ path ∈ pkg.dependencyPathArray, path ≠ []) :
    addPackageInformation (addPackageInformation rs pm tm).1
        (addPackageInformation rs pm tm).2 tm =
      addPackageInformation rs pm tm := by
  unfold addPackageInformation
  rw [buildLocationsByID_stable rs _ pm _
      (processAll_types (buildLocationsByID rs pm) (buildTypesByCVE rs tm) rs pm)
      (processAll_future (buildLocationsByID rs pm) (buildTypesByCVE rs tm) rs pm),
    buildTypesByCVE_stable rs _ tm
      (processAll_types (buildLocationsByID rs pm) (buildTypesByCVE rs tm) rs pm)]
  exact processAll_stable (buildLocationsByID rs pm) (buildTypesByCVE rs tm) rs pm

/-- Witness inputs for the enrichment idempotence: one SCA finding whose
package has a single one-element dependency path. -/
def witScaResult : ScanResult :=
  { id := "cve-1", type := "sca", state := "TO_VERIFY", severity := "HIGH",
    description := "", scaType := "",
    vulnerabilityDetails := { cvssScore := 5, cveName := "CVE-1" },
    scanResultData :=
      { queryID := none, queryName := "", packageIdentifier := "p1",
        nodes := [], filename := "", line := 0, value := "", expectedValue := "",
        scaPackageCollection := none } }

/-- See `witScaResult`. -/
def witScaPackage : ScaPackageCollection :=
  { id := "p1", locations := ["package.json"],
    dependencyPathArray := [[{ id := "p1", locations := [], supportsQuickFix := false }]],
    supportsQuickFix := false, fixLink := "", typeOfDependency := "",
    isDirectDependency := true }

/-- Witness for the enrichment idempotence theorem at a concrete input. -/
theorem addPackageInformation_idem_witness :
    addPackageInformation (addPackageInformation [witScaResult] [witScaPackage] []).1
        (addPackageInformation [witScaResult] [witScaPackage] []).2 [] =
      addPackageInformation [witScaResult] [witScaPackage] [] :=
  addPackageInformation_idem [witScaResult] [witScaPackage] [] (by decide)

end AstCli
